import Mathlib

/-!
# The systemd adapter of the `service` package

A shallow embedding of `service_systemd_linux.go`: the unit-definition
template `systemdScript` and its execution, the lifecycle operations
`Install`, `Uninstall`, `Start`, `Stop`, `Restart` and the foreground loop
`Run`.

Effects are made explicit. The file system is a map from paths to contents,
every call that leaves the process (a file-system call, the
executable-path resolver, a `systemctl` subprocess, a callback of the managed
program, the signal channel) is appended to a trace, and the outcomes that the
code cannot control are read from an environment record.
-/

set_option maxRecDepth 100000

namespace Systemd

/-! ## Data model -/

/-- Modelled from the spec: the `Config` struct is declared outside
`service_systemd_linux.go`; these are the fields of section 3 of the
specification, which are exactly the fields the adapter reads. Optional
strings are Go strings, empty when unset. -/
structure Config where
  Name : String
  DisplayName : String
  Description : String
  UserName : String
  Arguments : List String
  WorkingDirectory : String
  ChRoot : String
  UserService : Bool

/-- Go `error` values that the adapter can return. The first two are created
by the adapter itself (`errNoUserServiceSystemd`, line 49, and the
`fmt.Errorf("Init already exists: %s", confPath)` of line 70); the others are
produced by the operating system, a subprocess or a callback. -/
inductive Error where
  | errNoUserServiceSystemd
  | initAlreadyExists (confPath : String)
  | pathError (op : String) (path : String) (msg : String)
  | other (msg : String)
  deriving DecidableEq, Repr

/-- Operating-system signals: the two that `Run` registers for and a
representative of every other signal. -/
inductive Signal where
  | SIGTERM
  | Interrupt
  | SIGHUP
  deriving DecidableEq, Repr

/-- One entry per call that leaves the adapter, in program order. An entry
records the attempt, whatever its outcome. -/
inductive Event where
  | stat (path : String)
  | create (path : String)
  | executable
  | write (path : String) (text : String)
  | close (path : String)
  | remove (path : String)
  | command (name : String) (args : List String)
  | sleep (milliseconds : Nat)
  | callStart
  | callStop
  | signalNotify (capacity : Nat) (sigs : List Signal)
  | signalReceive (sig : Signal)
  deriving DecidableEq, Repr

/-- The observable world of the lifecycle operations: file contents by path
(`none` when the path does not exist) and the trace of calls made so far. -/
structure World where
  fs : String → Option String
  trace : List Event

/-- Outcomes the adapter does not control, one record per operation call.
`createErr`, `removeErr` give a failure of `os.Create` / `os.Remove` beyond
the ones the file-system state itself forces; `writeErr` gives a failure of
the write performed by the template execution together with the number of
characters that reached the file; `run` is the result of
`exec.Command(name, args...).Run()`. -/
structure Env where
  createErr : String → Option Error
  executable : Except Error String
  writeErr : Option (Nat × Error)
  removeErr : String → Option Error
  run : String → List String → Option Error

/-! ## The unit-definition template (lines 59-61 and 158-174) -/

/-- The anonymous struct `to` of `Install` (lines 84-90): the embedded
`*Config` and the resolved executable `Path`. -/
structure TemplateData where
  config : Config
  Path : String

/-- String-valued fields of the template data that `systemdScript` refers to. -/
inductive Field where
  | Description
  | Path
  | ChRoot
  | WorkingDirectory
  | UserName
  deriving DecidableEq, Repr

/-- Field lookup on the template data. -/
def Field.get : Field → TemplateData → String
  | .Description, d => d.config.Description
  | .Path, d => d.Path
  | .ChRoot, d => d.config.ChRoot
  | .WorkingDirectory, d => d.config.WorkingDirectory
  | .UserName, d => d.config.UserName

/-- Template pieces whose dot is the template data: literal text, a field
printed as it is, and a field piped through `cmd`. -/
inductive Item where
  | text (s : String)
  | field (f : Field)
  | fieldCmd (f : Field)
  deriving DecidableEq, Repr

/-- Template pieces inside `range .Arguments`, whose dot is the current
argument: literal text and the dot piped through `cmd`. -/
inductive ArgItem where
  | text (s : String)
  | dotCmd
  deriving DecidableEq, Repr

/-- Top-level template nodes: a plain piece, `range .Arguments ... end`, and
`if .F ... end` on a string field. -/
inductive Node where
  | item (i : Item)
  | rangeArguments (body : List ArgItem)
  | cond (f : Field) (body : List Item)
  deriving DecidableEq, Repr

/-- The constant `systemdScript` (lines 158-174), parsed: the text between
actions is kept byte for byte, including the newline that ends every line. -/
def systemdScript : List Node :=
  [ .item (.text "[Unit]\nDescription="),
    .item (.field .Description),
    .item (.text "\nConditionFileIsExecutable="),
    .item (.fieldCmd .Path),
    .item (.text "\n\n[Service]\nStartLimitInterval=5\nStartLimitBurst=10\nExecStart="),
    .item (.fieldCmd .Path),
    .rangeArguments [.text " ", .dotCmd],
    .item (.text "\n"),
    .cond .ChRoot [.text "RootDirectory=", .fieldCmd .ChRoot],
    .item (.text "\n"),
    .cond .WorkingDirectory [.text "WorkingDirectory=", .fieldCmd .WorkingDirectory],
    .item (.text "\n"),
    .cond .UserName [.text "User=", .field .UserName],
    .item (.text "\nRestart=always\nRestartSec=120\n\n[Install]\nWantedBy=multi-user.target\n") ]

/-- Output of one plain piece. `cmd` is the template function of that name
from the function map `tf`, which is declared outside this file. -/
def execItem (cmd : String → String) (d : TemplateData) : Item → String
  | .text s => s
  | .field f => f.get d
  | .fieldCmd f => cmd (f.get d)

/-- Output of a sequence of plain pieces, in order. -/
def execItems (cmd : String → String) (d : TemplateData) : List Item → String
  | [] => ""
  | i :: rest => execItem cmd d i ++ execItems cmd d rest

/-- Output of one piece of a range body for the argument `a`. -/
def execArgItem (cmd : String → String) (a : String) : ArgItem → String
  | .text s => s
  | .dotCmd => cmd a

/-- Output of a range body for the argument `a`. -/
def execArgItems (cmd : String → String) (a : String) : List ArgItem → String
  | [] => ""
  | i :: rest => execArgItem cmd a i ++ execArgItems cmd a rest

/-- Output of `range` over the arguments: the body once per element, in the
order of the list; nothing for the empty list. -/
def execRange (cmd : String → String) (body : List ArgItem) : List String → String
  | [] => ""
  | a :: rest => execArgItems cmd a body ++ execRange cmd body rest

/-- Output of one top-level node. A string is true in `if` when it is not
empty. -/
def execNode (cmd : String → String) (d : TemplateData) : Node → String
  | .item i => execItem cmd d i
  | .rangeArguments body => execRange cmd body d.config.Arguments
  | .cond f body => if f.get d = "" then "" else execItems cmd d body

/-- Template execution: the outputs of the nodes, concatenated in order. -/
def execute (cmd : String → String) (d : TemplateData) : List Node → String
  | [] => ""
  | n :: rest => execNode cmd d n ++ execute cmd d rest

/-- The text of the unit definition for a configuration and an executable
path: `s.template().Execute(f, to)` without the write. -/
def render (cmd : String → String) (c : Config) (path : String) : String :=
  execute cmd ⟨c, path⟩ systemdScript

/-! ## File-system, subprocess and resolver calls -/

/-- Append an event to the trace. -/
def World.log (w : World) (e : Event) : World :=
  { w with trace := w.trace ++ [e] }

/-- Set the content of one path. -/
def World.put (w : World) (p : String) (v : Option String) : World :=
  { w with fs := fun q => if q = p then v else w.fs q }

/-- Call `os.Stat(p)`: the result is `true` when the error is nil, which is
when the path exists. -/
def osStat (p : String) (w : World) : Bool × World :=
  ((w.fs p).isSome, w.log (.stat p))

/-- Call `os.Create(p)`: on success the file exists and is empty. -/
def osCreate (env : Env) (p : String) (w : World) : Option Error × World :=
  match env.createErr p with
  | some err => (some err, w.log (.create p))
  | none => (none, (w.log (.create p)).put p (some ""))

/-- Call `osext.Executable()`. -/
def osextExecutable (env : Env) (w : World) : Except Error String × World :=
  (env.executable, w.log .executable)

/-- Call `s.template().Execute(f, to)` with `f` the file just created at `p`:
the rendered text is written to the file; a failing write leaves the
characters that were written before the failure. -/
def templateExecute (env : Env) (cmd : String → String) (p : String) (d : TemplateData)
    (w : World) : Option Error × World :=
  let text := execute cmd d systemdScript
  match env.writeErr with
  | some (n, err) => (some err, (w.log (.write p text)).put p (some (text.take n)))
  | none => (none, (w.log (.write p text)).put p (some text))

/-- Call `f.Close()` on the file created at `p`. -/
def fileClose (p : String) (w : World) : World :=
  w.log (.close p)

/-- Call `os.Remove(p)`: fails when the path does not exist or when the
environment refuses; on success the path no longer exists. -/
def osRemove (env : Env) (p : String) (w : World) : Option Error × World :=
  match w.fs p with
  | none => (some (.pathError "remove" p "no such file or directory"), w.log (.remove p))
  | some _ =>
    match env.removeErr p with
    | some err => (some err, w.log (.remove p))
    | none => (none, (w.log (.remove p)).put p none)

/-- Call `exec.Command(name, args...).Run()`. -/
def execRun (env : Env) (name : String) (args : List String) (w : World) :
    Option Error × World :=
  (env.run name args, w.log (.command name args))

/-- Call `time.Sleep(ms * time.Millisecond)`. -/
def timeSleep (ms : Nat) (w : World) : World :=
  w.log (.sleep ms)

/-! ## Lifecycle operations -/

/-- The method `configPath` (lines 51-58). -/
def configPath (c : Config) : Except Error String :=
  if c.UserService then .error .errNoUserServiceSystemd
  else .ok ("/etc/systemd/system/" ++ c.Name ++ ".service")

/-- The method `Install` (lines 63-102). The deferred `f.Close()` of line 77
runs on every return that follows a successful `os.Create`. -/
def Install (env : Env) (cmd : String → String) (c : Config) (w : World) :
    Option Error × World :=
  match configPath c with
  | .error err => (some err, w)
  | .ok confPath =>
    match osStat confPath w with
    | (true, w1) => (some (.initAlreadyExists confPath), w1)
    | (false, w1) =>
      match osCreate env confPath w1 with
      | (some err, w2) => (some err, w2)
      | (none, w2) =>
        match osextExecutable env w2 with
        | (.error err, w3) => (some err, fileClose confPath w3)
        | (.ok path, w3) =>
          match templateExecute env cmd confPath ⟨c, path⟩ w3 with
          | (some err, w4) => (some err, fileClose confPath w4)
          | (none, w4) =>
            match execRun env "systemctl" ["enable", c.Name ++ ".service"] w4 with
            | (some err, w5) => (some err, fileClose confPath w5)
            | (none, w5) =>
              match execRun env "systemctl" ["daemon-reload"] w5 with
              | (res, w6) => (res, fileClose confPath w6)

/-- The method `Uninstall` (lines 104-114). -/
def Uninstall (env : Env) (c : Config) (w : World) : Option Error × World :=
  let w1 := (execRun env "systemctl" ["disable", c.Name ++ ".service"] w).2
  match configPath c with
  | .error err => (some err, w1)
  | .ok cp =>
    match osRemove env cp w1 with
    | (some err, w2) => (some err, w2)
    | (none, w2) => (none, w2)

/-- The method `Start` (lines 141-143). -/
def Start (env : Env) (c : Config) (w : World) : Option Error × World :=
  execRun env "systemctl" ["start", c.Name ++ ".service"] w

/-- The method `Stop` (lines 145-147). -/
def Stop (env : Env) (c : Config) (w : World) : Option Error × World :=
  execRun env "systemctl" ["stop", c.Name ++ ".service"] w

/-- The method `Restart` (lines 149-156). -/
def Restart (env : Env) (c : Config) (w : World) : Option Error × World :=
  match Stop env c w with
  | (some err, w1) => (some err, w1)
  | (none, w1) => Start env c (timeSleep 50 w1)

/-! ## The foreground loop -/

/-- Modelled from the spec: the `Interface` type is declared outside
`service_systemd_linux.go`; section 6 of the specification gives it the two
callbacks `Start(service) -> error` and `Stop(service) -> error`. The
callbacks act on a state `σ` of the managed program. -/
structure Interface (σ : Type) where
  Start : σ → Option Error × σ
  Stop : σ → Option Error × σ

/-- The state of a `Run` call: the state of the managed program and the trace
of calls. -/
structure RunState (σ : Type) where
  prog : σ
  trace : List Event

/-- The signals `Run` registers for (line 134). -/
def notified : List Signal := [.SIGTERM, .Interrupt]

/-- Receive from the channel filled by `signal.Notify`: the first incoming
signal that is registered; `none` when no such signal ever arrives, in which
case the receive blocks forever. -/
def receive (registered : List Signal) (incoming : List Signal) : Option Signal :=
  incoming.find? (fun s => decide (s ∈ registered))

/-- The method `Run` (lines 126-139). `incoming` is the sequence of signals
delivered to the process after the registration. The result is `none` when the
call never returns. -/
def Run {σ : Type} (i : Interface σ) (incoming : List Signal) (st : RunState σ) :
    Option (Option Error) × RunState σ :=
  match i.Start st.prog with
  | (some err, p1) => (some (some err), ⟨p1, st.trace ++ [.callStart]⟩)
  | (none, p1) =>
    let tr := st.trace ++ [.callStart, .signalNotify 3 notified]
    match receive notified incoming with
    | none => (none, ⟨p1, tr⟩)
    | some sig =>
      let (res, p2) := i.Stop p1
      (some res, ⟨p2, tr ++ [.signalReceive sig, .callStop]⟩)


/-! ## Specification-side definitions -/

/-- The ExecStart line in the words of the specification: `ExecStart=` and the
escaped executable path, followed, for each argument in the order of the list,
by one space and the escaped argument. -/
def execStartLine (cmd : String → String) (path : String) (args : List String) : String :=
  args.foldl (fun line a => line ++ " " ++ cmd a) ("ExecStart=" ++ cmd path)

/-- Split a text at every line feed; a text that ends in a line feed has an
empty last piece. -/
def splitLines : List Char → List (List Char)
  | [] => [[]]
  | ch :: rest =>
    if ch = '\n' then [] :: splitLines rest
    else
      match splitLines rest with
      | [] => [[ch]]
      | l :: ls => (ch :: l) :: ls

/-- The lines of a text, which are what the service manager reads as
directives and section headers. -/
def lines (s : String) : List String :=
  (splitLines s.data).map String.mk

/-- The text made of the given lines, each ended by a line feed. -/
def unlines : List String → String
  | [] => ""
  | l :: rest => l ++ "\n" ++ unlines rest

/-! ## Concrete inputs used to instantiate the theorems -/

/-- A system-wide service named `demo` with two arguments. -/
def demoConfig : Config :=
  { Name := "demo", DisplayName := "", Description := "Demo service", UserName := "",
    Arguments := ["-p", "80 80"], WorkingDirectory := "/var/demo", ChRoot := "",
    UserService := false }

/-- The same service requested in the per-user scope. -/
def demoUserConfig : Config :=
  { demoConfig with UserService := true }

/-- A template function `cmd` for the examples: double quotes around the
value, line breaks dropped. -/
def demoCmd (s : String) : String :=
  "\"" ++ String.mk (s.data.filter (fun ch => ch != '\n')) ++ "\""

/-- An environment in which nothing fails. -/
def okEnv : Env :=
  { createErr := fun _ => none, executable := .ok "/usr/bin/demo", writeErr := none,
    removeErr := fun _ => none, run := fun _ _ => none }

/-- An environment in which every `systemctl` command fails. -/
def noSystemctlEnv : Env :=
  { okEnv with run := fun _ _ => some (.other "exit status 1") }

/-- An environment in which the executable path cannot be resolved. -/
def noExecutableEnv : Env :=
  { okEnv with executable := .error (.other "readlink /proc/self/exe: permission denied") }

/-- An environment in which files cannot be removed. -/
def noRemoveEnv : Env :=
  { okEnv with removeErr := fun _ => some (.other "operation not permitted") }

/-- A world without files and with an empty trace. -/
def emptyWorld : World :=
  { fs := fun _ => none, trace := [] }

/-- A world in which the definition file of `demo` already exists. -/
def installedWorld : World :=
  { fs := fun q => if q = "/etc/systemd/system/demo.service" then some "[Unit]\n" else none,
    trace := [] }

/-- Put a backslash (character 92) before every double quote (character 34). -/
def escapeQuotes : List Char → List Char
  | [] => []
  | ch :: rest =>
    if ch = Char.ofNat 34 then Char.ofNat 92 :: ch :: escapeQuotes rest
    else ch :: escapeQuotes rest

/-- A second template function `cmd` for the examples: double quotes around
the value, inner double quotes escaped, every other character kept. -/
def quoteCmd (s : String) : String :=
  "\"" ++ String.mk (escapeQuotes s.data) ++ "\""

/-- The `demo` service with a run-as user whose name carries a line feed and a
directive after it. -/
def injectConfig : Config :=
  { demoConfig with UserName := "nobody\nExecStartPre=/bin/false" }

/-- A managed program that counts the calls of its callbacks (starts, stops)
and whose `Stop` reports an error. -/
def countingProgram : Interface (Nat × Nat) :=
  { Start := fun s => (none, (s.1 + 1, s.2)),
    Stop := fun s => (some (Error.other "flush failed"), (s.1, s.2 + 1)) }

/-- A managed program whose `Start` fails. -/
def failingProgram : Interface (Nat × Nat) :=
  { Start := fun s => (some (Error.other "port in use"), (s.1 + 1, s.2)),
    Stop := fun s => (none, (s.1, s.2 + 1)) }

/-- The state in which no callback has been called and nothing is traced. -/
def freshRun : RunState (Nat × Nat) :=
  { prog := (0, 0), trace := [] }

/-! ## Install -/

/-- C1: with `UserService` set, `Install` returns `errNoUserServiceSystemd`
and the world is the one it was called in: the file system is unchanged and
the trace has no new entry, so no stat, create, write, executable-path
resolution or `systemctl` command took place. -/
theorem install_user_service_rejected (env : Env) (cmd : String → String) (c : Config)
    (w : World) (hu : c.UserService = true) :
    Install env cmd c w = (some Error.errNoUserServiceSystemd, w) ∧
      (Install env cmd c w).2.fs = w.fs ∧ (Install env cmd c w).2.trace = w.trace := by
  simp [Install, configPath, hu]

/-- C1 at the per-user `demo` service, with the file present and `systemctl` failing. -/
theorem install_user_service_rejected_witness :
    demoUserConfig.UserService = true ∧
      (Install noSystemctlEnv demoCmd demoUserConfig installedWorld
          = (some Error.errNoUserServiceSystemd, installedWorld) ∧
        (Install noSystemctlEnv demoCmd demoUserConfig installedWorld).2.fs = installedWorld.fs ∧
        (Install noSystemctlEnv demoCmd demoUserConfig installedWorld).2.trace
          = installedWorld.trace) :=
  ⟨rfl, install_user_service_rejected noSystemctlEnv demoCmd demoUserConfig installedWorld rfl⟩

/-- C2: when the definition file exists, `Install` of a system-wide service
fails with the already-exists error after the stat alone, so the file system
(that file's content included) is unchanged and no command is run; hence a
second `Install`, called in the world a first call left with the file in it,
fails the same way and leaves the file as the first call wrote it. -/
theorem install_existing_rejected (env : Env) (cmd : String → String) (c : Config)
    (hu : c.UserService = false) :
    (∀ (w : World) (content : String),
      w.fs ("/etc/systemd/system/" ++ c.Name ++ ".service") = some content →
        (Install env cmd c w).1
            = some (Error.initAlreadyExists ("/etc/systemd/system/" ++ c.Name ++ ".service")) ∧
          (Install env cmd c w).2.fs = w.fs ∧
          (Install env cmd c w).2.fs ("/etc/systemd/system/" ++ c.Name ++ ".service")
            = some content ∧
          (Install env cmd c w).2.trace
            = w.trace ++ [Event.stat ("/etc/systemd/system/" ++ c.Name ++ ".service")]) ∧
    (∀ (env1 : Env) (w0 : World) (content : String),
      (Install env1 cmd c w0).2.fs ("/etc/systemd/system/" ++ c.Name ++ ".service")
          = some content →
        (Install env cmd c (Install env1 cmd c w0).2).1
            = some (Error.initAlreadyExists ("/etc/systemd/system/" ++ c.Name ++ ".service")) ∧
          (Install env cmd c (Install env1 cmd c w0).2).2.fs = (Install env1 cmd c w0).2.fs ∧
          (Install env cmd c (Install env1 cmd c w0).2).2.fs
              ("/etc/systemd/system/" ++ c.Name ++ ".service") = some content ∧
          (Install env cmd c (Install env1 cmd c w0).2).2.trace
            = (Install env1 cmd c w0).2.trace
                ++ [Event.stat ("/etc/systemd/system/" ++ c.Name ++ ".service")]) := by
  have key : ∀ (w : World) (content : String),
      w.fs ("/etc/systemd/system/" ++ c.Name ++ ".service") = some content →
        (Install env cmd c w).1
            = some (Error.initAlreadyExists ("/etc/systemd/system/" ++ c.Name ++ ".service")) ∧
          (Install env cmd c w).2.fs = w.fs ∧
          (Install env cmd c w).2.fs ("/etc/systemd/system/" ++ c.Name ++ ".service")
            = some content ∧
          (Install env cmd c w).2.trace
            = w.trace ++ [Event.stat ("/etc/systemd/system/" ++ c.Name ++ ".service")] := by
    intro w content hex
    simp [Install, configPath, hu, osStat, hex, World.log]
  exact ⟨key, fun env1 w0 content h => key _ content h⟩
/-- C2 at `demo`: a first `Install` in the empty world creates the file, and
the second call is rejected. -/
theorem install_existing_rejected_witness :
    demoConfig.UserService = false ∧
      installedWorld.fs ("/etc/systemd/system/" ++ demoConfig.Name ++ ".service")
        = some "[Unit]\n" ∧
      (Install okEnv demoCmd demoConfig installedWorld).1
        = some (Error.initAlreadyExists ("/etc/systemd/system/" ++ demoConfig.Name ++ ".service")) ∧
      (Install okEnv demoCmd demoConfig emptyWorld).2.fs
          ("/etc/systemd/system/" ++ demoConfig.Name ++ ".service")
        = some (render demoCmd demoConfig "/usr/bin/demo") ∧
      (Install okEnv demoCmd demoConfig (Install okEnv demoCmd demoConfig emptyWorld).2).2.fs
          ("/etc/systemd/system/" ++ demoConfig.Name ++ ".service")
        = some (render demoCmd demoConfig "/usr/bin/demo") :=
  ⟨rfl, by decide,
    ((install_existing_rejected okEnv demoCmd demoConfig rfl).1 installedWorld "[Unit]\n"
      (by decide)).1,
    by decide,
    ((install_existing_rejected okEnv demoCmd demoConfig rfl).2 okEnv emptyWorld
      (render demoCmd demoConfig "/usr/bin/demo") (by decide)).2.2.1⟩

/-! ## Restart -/

/-- C5: `Restart` issues `systemctl stop` first. When that command fails,
`Restart` returns its error and the trace gains the stop command alone, so the
start command is never issued. When it succeeds, the trace gains the stop
command, the 50 ms sleep and the start command, in this order, and the result
of `Restart` is the result of the start command. -/
theorem restart_stop_then_start (env : Env) (c : Config) (w : World) :
    (∀ err : Error, env.run "systemctl" ["stop", c.Name ++ ".service"] = some err →
      (Restart env c w).1 = some err ∧
        (Restart env c w).2.fs = w.fs ∧
        (Restart env c w).2.trace
          = w.trace ++ [Event.command "systemctl" ["stop", c.Name ++ ".service"]]) ∧
    (env.run "systemctl" ["stop", c.Name ++ ".service"] = none →
      (Restart env c w).1 = env.run "systemctl" ["start", c.Name ++ ".service"] ∧
        (Restart env c w).2.fs = w.fs ∧
        (Restart env c w).2.trace
          = w.trace ++ [Event.command "systemctl" ["stop", c.Name ++ ".service"],
              Event.sleep 50,
              Event.command "systemctl" ["start", c.Name ++ ".service"]]) := by
  constructor
  · intro err h
    simp [Restart, Stop, execRun, h, World.log]
  · intro h
    simp [Restart, Stop, Start, execRun, timeSleep, h, World.log]

/-- C5 at `demo`: once with a failing and once with a succeeding stop command. -/
theorem restart_stop_then_start_witness :
    (noSystemctlEnv.run "systemctl" ["stop", demoConfig.Name ++ ".service"]
        = some (Error.other "exit status 1") ∧
      (Restart noSystemctlEnv demoConfig emptyWorld).2.trace
        = emptyWorld.trace
            ++ [Event.command "systemctl" ["stop", demoConfig.Name ++ ".service"]]) ∧
    (okEnv.run "systemctl" ["stop", demoConfig.Name ++ ".service"] = none ∧
      (Restart okEnv demoConfig emptyWorld).1
        = okEnv.run "systemctl" ["start", demoConfig.Name ++ ".service"]) :=
  ⟨⟨rfl, ((restart_stop_then_start noSystemctlEnv demoConfig emptyWorld).1
      (Error.other "exit status 1") rfl).2.2⟩,
    ⟨rfl, ((restart_stop_then_start okEnv demoConfig emptyWorld).2 rfl).1⟩⟩
/-! ## Install: order of effects and failures -/

/-- C6, the claim fails: with the executable path unresolvable, `Install` of
`demo` in the empty world returns the resolver's error, yet the definition file
exists afterwards (empty), because `os.Create` precedes `osext.Executable`. -/
theorem install_resolution_failure_leaves_file :
    demoConfig.UserService = false ∧
      emptyWorld.fs "/etc/systemd/system/demo.service" = none ∧
      (Install noExecutableEnv demoCmd demoConfig emptyWorld).1
        = some (Error.other "readlink /proc/self/exe: permission denied") ∧
      (Install noExecutableEnv demoCmd demoConfig emptyWorld).2.fs
          "/etc/systemd/system/demo.service" = some "" ∧
      (Install noExecutableEnv demoCmd demoConfig emptyWorld).2.trace
        = [Event.stat "/etc/systemd/system/demo.service",
            Event.create "/etc/systemd/system/demo.service", Event.executable,
            Event.close "/etc/systemd/system/demo.service"] := by
  decide

/-- C6, amended: for a system-wide service whose definition file is absent and
can be created, `Install` checks the path, creates the file, and only then
resolves the executable path. When the resolution fails, `Install` returns that
error with no command run and no write, and the file it created is left, empty,
with every other path untouched. When the resolution and the write succeed, the
calls are stat, create, resolve, write of the rendered definition,
`systemctl enable`, `systemctl daemon-reload` and the deferred close, in this
order. -/
theorem install_effect_order (env : Env) (cmd : String → String) (c : Config) (w : World)
    (hu : c.UserService = false)
    (habsent : w.fs ("/etc/systemd/system/" ++ c.Name ++ ".service") = none)
    (hcreate : env.createErr ("/etc/systemd/system/" ++ c.Name ++ ".service") = none) :
    (∀ err : Error, env.executable = Except.error err →
      (Install env cmd c w).1 = some err ∧
        (Install env cmd c w).2.fs ("/etc/systemd/system/" ++ c.Name ++ ".service") = some "" ∧
        (∀ q : String, q ≠ "/etc/systemd/system/" ++ c.Name ++ ".service" →
          (Install env cmd c w).2.fs q = w.fs q) ∧
        (Install env cmd c w).2.trace
          = w.trace ++ [Event.stat ("/etc/systemd/system/" ++ c.Name ++ ".service"),
              Event.create ("/etc/systemd/system/" ++ c.Name ++ ".service"),
              Event.executable,
              Event.close ("/etc/systemd/system/" ++ c.Name ++ ".service")]) ∧
    (∀ path : String, env.executable = Except.ok path → env.writeErr = none →
      env.run "systemctl" ["enable", c.Name ++ ".service"] = none →
      (Install env cmd c w).1 = env.run "systemctl" ["daemon-reload"] ∧
        (Install env cmd c w).2.fs ("/etc/systemd/system/" ++ c.Name ++ ".service")
          = some (render cmd c path) ∧
        (Install env cmd c w).2.trace
          = w.trace ++ [Event.stat ("/etc/systemd/system/" ++ c.Name ++ ".service"),
              Event.create ("/etc/systemd/system/" ++ c.Name ++ ".service"),
              Event.executable,
              Event.write ("/etc/systemd/system/" ++ c.Name ++ ".service") (render cmd c path),
              Event.command "systemctl" ["enable", c.Name ++ ".service"],
              Event.command "systemctl" ["daemon-reload"],
              Event.close ("/etc/systemd/system/" ++ c.Name ++ ".service")]) := by
  constructor
  · intro err hexe
    refine ⟨?_, ?_, ?_, ?_⟩
    · simp [Install, configPath, hu, osStat, habsent, osCreate, hcreate, osextExecutable, hexe]
    · simp [Install, configPath, hu, osStat, habsent, osCreate, hcreate, osextExecutable, hexe,
        World.log, World.put, fileClose]
    · intro q hq
      simp [Install, configPath, hu, osStat, habsent, osCreate, hcreate, osextExecutable, hexe,
        World.log, World.put, fileClose, hq]
    · simp [Install, configPath, hu, osStat, habsent, osCreate, hcreate, osextExecutable, hexe,
        World.log, World.put, fileClose]
  · intro path hexe hwrite henable
    refine ⟨?_, ?_, ?_⟩
    · simp [Install, configPath, hu, osStat, habsent, osCreate, hcreate, osextExecutable, hexe,
        templateExecute, hwrite, execRun, henable, World.log, World.put, fileClose]
    · simp [Install, configPath, hu, osStat, habsent, osCreate, hcreate, osextExecutable, hexe,
        templateExecute, hwrite, execRun, henable, World.log, World.put, fileClose, render]
    · simp [Install, configPath, hu, osStat, habsent, osCreate, hcreate, osextExecutable, hexe,
        templateExecute, hwrite, execRun, henable, World.log, World.put, fileClose, render]

/-- C6 amended, at `demo` in the empty world: once with the executable path
unresolvable and once with nothing failing. -/
theorem install_effect_order_witness :
    (demoConfig.UserService = false ∧
      emptyWorld.fs ("/etc/systemd/system/" ++ demoConfig.Name ++ ".service") = none ∧
      noExecutableEnv.executable
        = Except.error (Error.other "readlink /proc/self/exe: permission denied") ∧
      (Install noExecutableEnv demoCmd demoConfig emptyWorld).2.fs
        ("/etc/systemd/system/" ++ demoConfig.Name ++ ".service") = some "") ∧
    (okEnv.executable = Except.ok "/usr/bin/demo" ∧
      (Install okEnv demoCmd demoConfig emptyWorld).1 = okEnv.run "systemctl" ["daemon-reload"]) :=
  ⟨⟨rfl, rfl, rfl,
      ((install_effect_order noExecutableEnv demoCmd demoConfig emptyWorld rfl rfl rfl).1
        (Error.other "readlink /proc/self/exe: permission denied") rfl).2.1⟩,
    ⟨rfl,
      ((install_effect_order okEnv demoCmd demoConfig emptyWorld rfl rfl rfl).2
        "/usr/bin/demo" rfl rfl rfl).1⟩⟩

/-- C7: for a system-wide service whose definition file is absent, when the
file is created and written and `systemctl enable` fails, `Install` returns the
error of the enable command, the only call after that command is the deferred
close of the file (so `systemctl daemon-reload` is not run and nothing is
removed), and the definition file holds the rendered text. -/
theorem install_enable_failure_keeps_file (env : Env) (cmd : String → String) (c : Config)
    (w : World) (path : String) (err : Error)
    (hu : c.UserService = false)
    (habsent : w.fs ("/etc/systemd/system/" ++ c.Name ++ ".service") = none)
    (hcreate : env.createErr ("/etc/systemd/system/" ++ c.Name ++ ".service") = none)
    (hexe : env.executable = Except.ok path)
    (hwrite : env.writeErr = none)
    (henable : env.run "systemctl" ["enable", c.Name ++ ".service"] = some err) :
    (Install env cmd c w).1 = some err ∧
      (Install env cmd c w).2.fs ("/etc/systemd/system/" ++ c.Name ++ ".service")
        = some (render cmd c path) ∧
      (Install env cmd c w).2.trace
        = w.trace ++ [Event.stat ("/etc/systemd/system/" ++ c.Name ++ ".service"),
            Event.create ("/etc/systemd/system/" ++ c.Name ++ ".service"),
            Event.executable,
            Event.write ("/etc/systemd/system/" ++ c.Name ++ ".service") (render cmd c path),
            Event.command "systemctl" ["enable", c.Name ++ ".service"],
            Event.close ("/etc/systemd/system/" ++ c.Name ++ ".service")] ∧
      Event.command "systemctl" ["daemon-reload"] ∉
        ((Install env cmd c w).2.trace).drop w.trace.length := by
  have htr : (Install env cmd c w).2.trace
      = w.trace ++ [Event.stat ("/etc/systemd/system/" ++ c.Name ++ ".service"),
          Event.create ("/etc/systemd/system/" ++ c.Name ++ ".service"),
          Event.executable,
          Event.write ("/etc/systemd/system/" ++ c.Name ++ ".service") (render cmd c path),
          Event.command "systemctl" ["enable", c.Name ++ ".service"],
          Event.close ("/etc/systemd/system/" ++ c.Name ++ ".service")] := by
    simp [Install, configPath, hu, osStat, habsent, osCreate, hcreate, osextExecutable, hexe,
      templateExecute, hwrite, execRun, henable, World.log, World.put, fileClose, render]
  refine ⟨?_, ?_, htr, ?_⟩
  · simp [Install, configPath, hu, osStat, habsent, osCreate, hcreate, osextExecutable, hexe,
      templateExecute, hwrite, execRun, henable, World.log, World.put, fileClose]
  · simp [Install, configPath, hu, osStat, habsent, osCreate, hcreate, osextExecutable, hexe,
      templateExecute, hwrite, execRun, henable, World.log, World.put, fileClose, render]
  · rw [htr, List.drop_left]
    simp

/-- C7 at `demo` in the empty world with every `systemctl` command failing. -/
theorem install_enable_failure_keeps_file_witness :
    demoConfig.UserService = false ∧
      noSystemctlEnv.run "systemctl" ["enable", demoConfig.Name ++ ".service"]
        = some (Error.other "exit status 1") ∧
      (Install noSystemctlEnv demoCmd demoConfig emptyWorld).1
        = some (Error.other "exit status 1") ∧
      (Install noSystemctlEnv demoCmd demoConfig emptyWorld).2.fs
          ("/etc/systemd/system/" ++ demoConfig.Name ++ ".service")
        = some (render demoCmd demoConfig "/usr/bin/demo") :=
  ⟨rfl, rfl,
    (install_enable_failure_keeps_file noSystemctlEnv demoCmd demoConfig emptyWorld
      "/usr/bin/demo" (Error.other "exit status 1") rfl rfl rfl rfl rfl rfl).1,
    (install_enable_failure_keeps_file noSystemctlEnv demoCmd demoConfig emptyWorld
      "/usr/bin/demo" (Error.other "exit status 1") rfl rfl rfl rfl rfl rfl).2.1⟩
/-! ## Uninstall -/

/-- The file system after `Install` differs from the one before at most at the
definition path. -/
theorem install_fs_elsewhere (env : Env) (cmd : String → String) (c : Config) (w : World)
    (q : String) (hq : q ≠ "/etc/systemd/system/" ++ c.Name ++ ".service") :
    (Install env cmd c w).2.fs q = w.fs q := by
  unfold Install configPath
  cases hu : c.UserService
  · cases hst : w.fs ("/etc/systemd/system/" ++ c.Name ++ ".service") <;>
      cases hcr : env.createErr ("/etc/systemd/system/" ++ c.Name ++ ".service") <;>
      cases hex : env.executable <;>
      cases hwr : env.writeErr <;>
      cases hen : env.run "systemctl" ["enable", c.Name ++ ".service"] <;>
      simp [osStat, hst, osCreate, hcr, osextExecutable, hex, templateExecute, hwr, execRun,
        hen, World.log, World.put, fileClose, hq]
  · simp

/-- A successful `Install` started with the definition file absent and left it
holding the rendered text of some executable path. -/
theorem install_success_file (env : Env) (cmd : String → String) (c : Config) (w : World)
    (hok : (Install env cmd c w).1 = none) :
    c.UserService = false ∧
      w.fs ("/etc/systemd/system/" ++ c.Name ++ ".service") = none ∧
      ∃ path : String, env.executable = Except.ok path ∧
        (Install env cmd c w).2.fs ("/etc/systemd/system/" ++ c.Name ++ ".service")
          = some (render cmd c path) := by
  revert hok
  unfold Install configPath
  cases hu : c.UserService
  · cases hst : w.fs ("/etc/systemd/system/" ++ c.Name ++ ".service") <;>
      cases hcr : env.createErr ("/etc/systemd/system/" ++ c.Name ++ ".service") <;>
      cases hex : env.executable <;>
      cases hwr : env.writeErr <;>
      cases hen : env.run "systemctl" ["enable", c.Name ++ ".service"] <;>
      simp [osStat, hst, osCreate, hcr, osextExecutable, hex, templateExecute, hwr, execRun,
        hen, World.log, World.put, fileClose, render]
  · simp

/-- C3: when `Install` succeeds and the removal is not refused, the `Uninstall`
that follows succeeds whatever the `systemctl` commands of `Uninstall` return,
the path it removes is the path `Install` created and wrote, no definition file
is left at that path, and the file system is again the one `Install` started
from. -/
theorem install_then_uninstall (env1 env2 : Env) (cmd : String → String) (c : Config)
    (w : World)
    (hinstall : (Install env1 cmd c w).1 = none)
    (hremove : env2.removeErr ("/etc/systemd/system/" ++ c.Name ++ ".service") = none) :
    (Uninstall env2 c (Install env1 cmd c w).2).1 = none ∧
      (Uninstall env2 c (Install env1 cmd c w).2).2.fs
          ("/etc/systemd/system/" ++ c.Name ++ ".service") = none ∧
      (Uninstall env2 c (Install env1 cmd c w).2).2.fs = w.fs ∧
      Event.create ("/etc/systemd/system/" ++ c.Name ++ ".service")
        ∈ (Install env1 cmd c w).2.trace ∧
      (Uninstall env2 c (Install env1 cmd c w).2).2.trace
        = (Install env1 cmd c w).2.trace
            ++ [Event.command "systemctl" ["disable", c.Name ++ ".service"],
              Event.remove ("/etc/systemd/system/" ++ c.Name ++ ".service")] := by
  obtain ⟨hu, habsent, path, hexe, hfile⟩ := install_success_file env1 cmd c w hinstall
  have hcreated : Event.create ("/etc/systemd/system/" ++ c.Name ++ ".service")
      ∈ (Install env1 cmd c w).2.trace := by
    revert hinstall
    unfold Install configPath
    cases hcr : env1.createErr ("/etc/systemd/system/" ++ c.Name ++ ".service") <;>
      cases hwr : env1.writeErr <;>
      cases hen : env1.run "systemctl" ["enable", c.Name ++ ".service"] <;>
      simp [hu, osStat, habsent, osCreate, hcr, osextExecutable, hexe, templateExecute, hwr,
        execRun, hen, World.log, World.put, fileClose]
  refine ⟨?_, ?_, ?_, hcreated, ?_⟩
  · simp [Uninstall, configPath, hu, execRun, osRemove, World.log, hfile, hremove]
  · simp [Uninstall, configPath, hu, execRun, osRemove, World.log, World.put, fileClose, hfile, hremove]
  · funext q
    by_cases hq : q = "/etc/systemd/system/" ++ c.Name ++ ".service"
    · subst hq
      simp [Uninstall, configPath, hu, execRun, osRemove, World.log, World.put, fileClose, hfile, hremove,
        habsent]
    · have := install_fs_elsewhere env1 cmd c w q hq
      simp [Uninstall, configPath, hu, execRun, osRemove, World.log, World.put, fileClose, hfile, hremove,
        hq, this]
  · simp [Uninstall, configPath, hu, execRun, osRemove, World.log, World.put, fileClose, hfile, hremove]

/-- C3 at `demo`: installed in the empty world with nothing failing, then
uninstalled with every `systemctl` command failing. -/
theorem install_then_uninstall_witness :
    (Install okEnv demoCmd demoConfig emptyWorld).1 = none ∧
      noSystemctlEnv.removeErr ("/etc/systemd/system/" ++ demoConfig.Name ++ ".service") = none ∧
      (Uninstall noSystemctlEnv demoConfig (Install okEnv demoCmd demoConfig emptyWorld).2).2.fs
        ("/etc/systemd/system/" ++ demoConfig.Name ++ ".service") = none :=
  ⟨by decide, rfl,
    (install_then_uninstall okEnv noSystemctlEnv demoCmd demoConfig emptyWorld (by decide)
      rfl).2.1⟩

/-- C8: for a system-wide service the result of `Uninstall` is the result of
removing the definition file, so it is the same for two environments that
differ only in the outcome of `systemctl` commands; `Uninstall` fails exactly
when the removal fails, with the removal's error; and after a successful
`Uninstall` the definition file is absent. -/
theorem uninstall_result_is_removal (env : Env) (c : Config) (w : World)
    (hu : c.UserService = false) :
    (Uninstall env c w).1
        = (osRemove env ("/etc/systemd/system/" ++ c.Name ++ ".service") w).1 ∧
      (∀ env2 : Env, env2.removeErr = env.removeErr →
        (Uninstall env2 c w).1 = (Uninstall env c w).1 ∧
          (Uninstall env2 c w).2.fs = (Uninstall env c w).2.fs) ∧
      (∀ err : Error, (Uninstall env c w).1 = some err ↔
        (osRemove env ("/etc/systemd/system/" ++ c.Name ++ ".service") w).1 = some err) ∧
      ((Uninstall env c w).1 = none →
        (Uninstall env c w).2.fs ("/etc/systemd/system/" ++ c.Name ++ ".service") = none) ∧
      (Uninstall env c w).2.trace
        = w.trace ++ [Event.command "systemctl" ["disable", c.Name ++ ".service"],
            Event.remove ("/etc/systemd/system/" ++ c.Name ++ ".service")] := by
  have hres : ∀ e : Env, (Uninstall e c w).1
      = (osRemove e ("/etc/systemd/system/" ++ c.Name ++ ".service") w).1 := by
    intro e
    cases hst : w.fs ("/etc/systemd/system/" ++ c.Name ++ ".service") <;>
      cases hrm : e.removeErr ("/etc/systemd/system/" ++ c.Name ++ ".service") <;>
      simp [Uninstall, configPath, hu, execRun, osRemove, World.log, World.put, fileClose, hst, hrm]
  refine ⟨hres env, ?_, ?_, ?_, ?_⟩
  · intro env2 h
    constructor
    · rw [hres env2, hres env]
      simp [osRemove, h]
    · cases hst : w.fs ("/etc/systemd/system/" ++ c.Name ++ ".service") <;>
        cases hrm : env.removeErr ("/etc/systemd/system/" ++ c.Name ++ ".service") <;>
        simp [Uninstall, configPath, hu, execRun, osRemove, World.log, World.put, fileClose, hst, hrm, h]
  · intro err
    rw [hres env]
  · cases hst : w.fs ("/etc/systemd/system/" ++ c.Name ++ ".service") <;>
      cases hrm : env.removeErr ("/etc/systemd/system/" ++ c.Name ++ ".service") <;>
      simp [Uninstall, configPath, hu, execRun, osRemove, World.log, World.put, fileClose, hst, hrm]
  · cases hst : w.fs ("/etc/systemd/system/" ++ c.Name ++ ".service") <;>
      cases hrm : env.removeErr ("/etc/systemd/system/" ++ c.Name ++ ".service") <;>
      simp [Uninstall, configPath, hu, execRun, osRemove, World.log, World.put, fileClose, hst, hrm]

/-- C8 at `demo` with the definition file present: the disable command fails
and `Uninstall` succeeds; the removal is refused and `Uninstall` fails with
the removal's error. -/
theorem uninstall_result_is_removal_witness :
    demoConfig.UserService = false ∧
      noSystemctlEnv.run "systemctl" ["disable", demoConfig.Name ++ ".service"]
        = some (Error.other "exit status 1") ∧
      (Uninstall noSystemctlEnv demoConfig installedWorld).1 = none ∧
      (Uninstall noSystemctlEnv demoConfig installedWorld).2.fs
        ("/etc/systemd/system/" ++ demoConfig.Name ++ ".service") = none ∧
      (Uninstall noRemoveEnv demoConfig installedWorld).1
        = some (Error.other "operation not permitted") :=
  ⟨rfl, rfl, by decide,
    (uninstall_result_is_removal noSystemctlEnv demoConfig installedWorld rfl).2.2.2.1
      (by decide),
    ((uninstall_result_is_removal noRemoveEnv demoConfig installedWorld rfl).2.2.1
      (Error.other "operation not permitted")).2 (by decide)⟩
/-! ## Run -/

/-- The receive returns a signal once a registered signal is among the
incoming ones, and what it returns is registered. -/
theorem receive_of_mem (registered incoming : List Signal) (sig : Signal)
    (hin : sig ∈ incoming) (hreg : sig ∈ registered) :
    ∃ got : Signal, receive registered incoming = some got ∧ got ∈ registered ∧
      got ∈ incoming := by
  unfold receive
  cases hf : incoming.find? (fun s => decide (s ∈ registered)) with
  | none =>
    rw [List.find?_eq_none] at hf
    exact absurd (by simpa using hreg) (hf sig hin)
  | some got =>
    refine ⟨got, rfl, ?_, List.mem_of_find?_eq_some hf⟩
    simpa using List.find?_some hf

/-- C4: when the program's `Start` fails, `Run` returns that error, and the
only call it made is the one to `Start`: `Stop` is not invoked and no signal
registration occurs. When `Start` succeeds and a SIGTERM or an interrupt is
among the incoming signals, `Run` returns, its result is what `Stop` returned on
the state `Start` left, and its calls are `Start`, the registration of SIGTERM
and interrupt on a channel of capacity 3, the receive of such a signal, and
`Stop`, once each and in this order. -/
theorem run_contract {σ : Type} (i : Interface σ) (incoming : List Signal) (st : RunState σ) :
    (∀ err : Error, (i.Start st.prog).1 = some err →
      (Run i incoming st).1 = some (some err) ∧
        (Run i incoming st).2.prog = (i.Start st.prog).2 ∧
        (Run i incoming st).2.trace = st.trace ++ [Event.callStart]) ∧
    ((i.Start st.prog).1 = none →
      ∀ sig : Signal, sig ∈ incoming → sig = Signal.SIGTERM ∨ sig = Signal.Interrupt →
        ∃ got : Signal, (got = Signal.SIGTERM ∨ got = Signal.Interrupt) ∧ got ∈ incoming ∧
          (Run i incoming st).1 = some (i.Stop (i.Start st.prog).2).1 ∧
          (Run i incoming st).2.prog = (i.Stop (i.Start st.prog).2).2 ∧
          (Run i incoming st).2.trace
            = st.trace ++ [Event.callStart,
                Event.signalNotify 3 [Signal.SIGTERM, Signal.Interrupt],
                Event.signalReceive got, Event.callStop] ∧
          ((Run i incoming st).2.trace.drop st.trace.length).count Event.callStop = 1) := by
  constructor
  · intro err h
    cases hs : i.Start st.prog with
    | mk r p =>
      rw [hs] at h
      simp only at h
      subst h
      simp [Run, hs]
  · intro h sig hin hsig
    have hreg : sig ∈ notified := by
      rcases hsig with rfl | rfl <;> simp [notified]
    obtain ⟨got, hgot, hgreg, hgin⟩ := receive_of_mem notified incoming sig hin hreg
    refine ⟨got, by simpa [notified] using hgreg, hgin, ?_⟩
    cases hs : i.Start st.prog with
    | mk r p =>
      rw [hs] at h
      simp only at h
      subst h
      have htr : (Run i incoming st).2.trace
          = st.trace ++ [Event.callStart,
              Event.signalNotify 3 [Signal.SIGTERM, Signal.Interrupt],
              Event.signalReceive got, Event.callStop] := by
        simp [Run, hs, hgot]
        rfl
      refine ⟨?_, ?_, htr, ?_⟩
      · simp [Run, hs, hgot]
      · simp [Run, hs, hgot]
      · rw [htr, List.drop_left]
        simp [List.count_cons]
/-- C4 at two programs: one whose `Start` fails, and one whose `Start`
succeeds, run with a hang-up, an interrupt and a SIGTERM incoming. -/
theorem run_contract_witness :
    ((failingProgram.Start freshRun.prog).1 = some (Error.other "port in use") ∧
      (Run failingProgram [Signal.SIGHUP, Signal.SIGTERM] freshRun).1
        = some (some (Error.other "port in use")) ∧
      (Run failingProgram [Signal.SIGHUP, Signal.SIGTERM] freshRun).2.trace
        = freshRun.trace ++ [Event.callStart]) ∧
    ((countingProgram.Start freshRun.prog).1 = none ∧
      ∃ got : Signal, (got = Signal.SIGTERM ∨ got = Signal.Interrupt) ∧
        got ∈ [Signal.SIGHUP, Signal.Interrupt, Signal.SIGTERM] ∧
        (Run countingProgram [Signal.SIGHUP, Signal.Interrupt, Signal.SIGTERM] freshRun).1
          = some (countingProgram.Stop (countingProgram.Start freshRun.prog).2).1 ∧
        (Run countingProgram [Signal.SIGHUP, Signal.Interrupt, Signal.SIGTERM] freshRun).2.prog
          = (countingProgram.Stop (countingProgram.Start freshRun.prog).2).2 ∧
        (Run countingProgram [Signal.SIGHUP, Signal.Interrupt, Signal.SIGTERM] freshRun).2.trace
          = freshRun.trace ++ [Event.callStart,
              Event.signalNotify 3 [Signal.SIGTERM, Signal.Interrupt],
              Event.signalReceive got, Event.callStop] ∧
        ((Run countingProgram [Signal.SIGHUP, Signal.Interrupt, Signal.SIGTERM]
            freshRun).2.trace.drop freshRun.trace.length).count Event.callStop = 1) :=
  ⟨⟨rfl,
      ((run_contract failingProgram [Signal.SIGHUP, Signal.SIGTERM] freshRun).1
        (Error.other "port in use") rfl).1,
      ((run_contract failingProgram [Signal.SIGHUP, Signal.SIGTERM] freshRun).1
        (Error.other "port in use") rfl).2.2⟩,
    ⟨rfl,
      (run_contract countingProgram [Signal.SIGHUP, Signal.Interrupt, Signal.SIGTERM]
        freshRun).2 rfl Signal.SIGTERM (by decide) (Or.inl rfl)⟩⟩

/-! ## The rendered definition -/

/-- A text split after a line without line feed: that line, then the lines of
the rest. -/
theorem splitLines_append (a b : List Char) (h : '\n' ∉ a) :
    splitLines (a ++ '\n' :: b) = a :: splitLines b := by
  induction a with
  | nil => simp [splitLines]
  | cons x a ih =>
    have hx : x ≠ '\n' := fun e => h (by simp [e])
    have ha : '\n' ∉ a := fun e => h (by simp [e])
    simp [splitLines, hx, ih ha]

/-- The first line of a text that starts with a line without line feed. -/
theorem lines_cons (l t : String) (h : '\n' ∉ l.data) :
    lines (l ++ "\n" ++ t) = l :: lines t := by
  have : (l ++ "\n" ++ t).data = l.data ++ '\n' :: t.data := by
    simp [String.data_append]
  simp [lines, this, splitLines_append _ _ h]

/-- The left fold of the specification and the `range` of the template produce
the same text. -/
theorem foldl_eq_execRange (cmd : String → String) (args : List String) (acc : String) :
    args.foldl (fun line a => line ++ " " ++ cmd a) acc
      = acc ++ execRange cmd [ArgItem.text " ", ArgItem.dotCmd] args := by
  induction args generalizing acc with
  | nil => simp [execRange]
  | cons a rest ih =>
    simp only [List.foldl, execRange, execArgItems, execArgItem]
    rw [ih]
    simp [String.append_assoc]

/-- The rendered definition, line by line. -/
theorem render_eq (cmd : String → String) (c : Config) (path : String) :
    render cmd c path
      = unlines ["[Unit]", "Description=" ++ c.Description,
          "ConditionFileIsExecutable=" ++ cmd path, "", "[Service]", "StartLimitInterval=5",
          "StartLimitBurst=10", execStartLine cmd path c.Arguments,
          if c.ChRoot = "" then "" else "RootDirectory=" ++ cmd c.ChRoot,
          if c.WorkingDirectory = "" then "" else "WorkingDirectory=" ++ cmd c.WorkingDirectory,
          if c.UserName = "" then "" else "User=" ++ c.UserName,
          "Restart=always", "RestartSec=120", "", "[Install]", "WantedBy=multi-user.target"] := by
  have h1 : "[Unit]\nDescription=" = "[Unit]" ++ ("\n" ++ "Description=") := by decide
  have h2 : "\nConditionFileIsExecutable=" = "\n" ++ "ConditionFileIsExecutable=" := by decide
  have h3 : "\n\n[Service]\nStartLimitInterval=5\nStartLimitBurst=10\nExecStart="
      = "\n" ++ ("\n" ++ ("[Service]" ++ ("\n" ++ ("StartLimitInterval=5" ++ ("\n"
          ++ ("StartLimitBurst=10" ++ ("\n" ++ "ExecStart="))))))) := by decide
  have h4 : "\nRestart=always\nRestartSec=120\n\n[Install]\nWantedBy=multi-user.target\n"
      = "\n" ++ ("Restart=always" ++ ("\n" ++ ("RestartSec=120" ++ ("\n" ++ ("\n"
          ++ ("[Install]" ++ ("\n" ++ ("WantedBy=multi-user.target" ++ "\n")))))))) := by decide
  simp only [execStartLine, foldl_eq_execRange]
  simp only [render, execute, systemdScript, execNode, execItem, execItems, Field.get, unlines,
    h1, h2, h3, h4, String.append_assoc, String.append_empty, String.empty_append]

/-- The ExecStart line has no line feed when the escaped values have none. -/
theorem execStartLine_no_newline (cmd : String → String) (path : String) (args : List String)
    (hp : '\n' ∉ (cmd path).data) (ha : ∀ a ∈ args, '\n' ∉ (cmd a).data) :
    '\n' ∉ (execStartLine cmd path args).data := by
  unfold execStartLine
  have hacc : '\n' ∉ ("ExecStart=" ++ cmd path).data := by
    simp only [String.data_append, List.mem_append, not_or]
    exact ⟨by decide, hp⟩
  generalize "ExecStart=" ++ cmd path = acc at hacc
  induction args generalizing acc with
  | nil => simpa using hacc
  | cons a rest ih =>
    simp only [List.foldl]
    apply ih (fun x hx => ha x (by simp [hx]))
    simp only [String.data_append, List.mem_append, not_or]
    exact ⟨⟨hacc, by decide⟩, ha a (by simp)⟩

/-- The ExecStart line depends on the arguments through their escaped forms
only. -/
theorem execStartLine_map (cmd : String → String) (path : String) (args : List String) :
    execStartLine cmd path args
      = (args.map cmd).foldl (fun line x => line ++ " " ++ x) ("ExecStart=" ++ cmd path) := by
  simp [execStartLine, List.foldl_map]

/-- C9: the rendered definition is the fixed header with the description and
the escaped path, then the ExecStart line, a line feed, and the output of the
rest of the template; the ExecStart line is `ExecStart=` with the escaped path
when there is no argument, and every further argument appends one space and
that argument escaped, after the ones before it. When the description and the
escaped path and arguments have no line feed, the ExecStart line is the eighth
line of the rendered definition. -/
theorem render_execStart_line (cmd : String → String) (c : Config) (path : String) :
    render cmd c path
        = "[Unit]\nDescription=" ++ c.Description ++ "\nConditionFileIsExecutable=" ++ cmd path
            ++ "\n\n[Service]\nStartLimitInterval=5\nStartLimitBurst=10\n"
            ++ execStartLine cmd path c.Arguments ++ "\n"
            ++ execute cmd ⟨c, path⟩ (systemdScript.drop 8) ∧
      execStartLine cmd path [] = "ExecStart=" ++ cmd path ∧
      (∀ (args : List String) (a : String),
        execStartLine cmd path (args ++ [a]) = execStartLine cmd path args ++ " " ++ cmd a) ∧
      ('\n' ∉ c.Description.data → '\n' ∉ (cmd path).data →
        (∀ a ∈ c.Arguments, '\n' ∉ (cmd a).data) →
        (lines (render cmd c path))[7]? = some (execStartLine cmd path c.Arguments)) := by
  refine ⟨?_, rfl, ?_, ?_⟩
  · have h3 : "\n\n[Service]\nStartLimitInterval=5\nStartLimitBurst=10\nExecStart="
        = "\n\n[Service]\nStartLimitInterval=5\nStartLimitBurst=10\n" ++ "ExecStart=" := by
      decide
    simp only [execStartLine, foldl_eq_execRange]
    simp only [render, execute, systemdScript, List.drop, h3, execNode, execItem, Field.get,
      String.append_assoc]
  · intro args a
    simp [execStartLine, List.foldl_append]
  · intro hd hp ha
    rw [render_eq]
    simp only [unlines]
    rw [lines_cons _ _ (by decide), lines_cons _ _ (by
        simp only [String.data_append, List.mem_append, not_or]
        exact ⟨by decide, hd⟩),
      lines_cons _ _ (by
        simp only [String.data_append, List.mem_append, not_or]
        exact ⟨by decide, hp⟩),
      lines_cons _ _ (by decide), lines_cons _ _ (by decide), lines_cons _ _ (by decide),
      lines_cons _ _ (by decide),
      lines_cons _ _ (execStartLine_no_newline cmd path c.Arguments hp ha)]
    simp

/-- C9 at `demo`. -/
theorem render_execStart_line_witness :
    ('\n' ∉ demoConfig.Description.data ∧ '\n' ∉ (demoCmd "/usr/bin/demo").data ∧
      (∀ a ∈ demoConfig.Arguments, '\n' ∉ (demoCmd a).data)) ∧
    (lines (render demoCmd demoConfig "/usr/bin/demo"))[7]?
      = some (execStartLine demoCmd "/usr/bin/demo" demoConfig.Arguments) ∧
    execStartLine demoCmd "/usr/bin/demo" demoConfig.Arguments
      = "ExecStart=\"/usr/bin/demo\" \"-p\" \"80 80\"" :=
  ⟨⟨by decide, by decide, by decide⟩,
    (render_execStart_line demoCmd demoConfig "/usr/bin/demo").2.2.2 (by decide) (by decide)
      (by decide),
    by decide⟩
/-- C10, the claim fails, in both of its parts. The run-as user of
`injectConfig` is written after `User=` as it is, not in the form `cmd` gives
it, and the directive after its line feed becomes a line of its own in the
rendered definition, even for a `cmd` that deletes line feeds. And being
inserted as the output of `cmd` does not by itself keep a value from adding
lines: with the quoting `cmd`, an executable path with a line feed in it makes
the rendered definition two lines longer, one of them starting a `User=`
directive. -/
theorem user_name_inserted_raw :
    (lines (render demoCmd injectConfig "/usr/bin/demo")
        = ["[Unit]", "Description=Demo service",
            "ConditionFileIsExecutable=\"/usr/bin/demo\"", "", "[Service]",
            "StartLimitInterval=5", "StartLimitBurst=10",
            "ExecStart=\"/usr/bin/demo\" \"-p\" \"80 80\"", "",
            "WorkingDirectory=\"/var/demo\"", "User=nobody", "ExecStartPre=/bin/false",
            "Restart=always", "RestartSec=120", "", "[Install]",
            "WantedBy=multi-user.target", ""] ∧
      "ExecStartPre=/bin/false" ∈ lines (render demoCmd injectConfig "/usr/bin/demo") ∧
      '\n' ∉ (demoCmd injectConfig.UserName).data ∧
      "User=" ++ demoCmd injectConfig.UserName
        ∉ lines (render demoCmd injectConfig "/usr/bin/demo")) ∧
    (lines (render quoteCmd demoConfig "/usr/bin/demo\nUser=root")
        = ["[Unit]", "Description=Demo service",
            "ConditionFileIsExecutable=\"/usr/bin/demo", "User=root\"", "", "[Service]",
            "StartLimitInterval=5", "StartLimitBurst=10",
            "ExecStart=\"/usr/bin/demo", "User=root\" \"-p\" \"80 80\"", "",
            "WorkingDirectory=\"/var/demo\"", "",
            "Restart=always", "RestartSec=120", "", "[Install]",
            "WantedBy=multi-user.target", ""] ∧
      (lines (render quoteCmd demoConfig "/usr/bin/demo")).length = 17 ∧
      (lines (render quoteCmd demoConfig "/usr/bin/demo\nUser=root")).length = 19) := by
  decide

/-- C10, amended: for every `cmd`, the executable path, the arguments, the
chroot path and the working directory are inserted into their directives
(ConditionFileIsExecutable, ExecStart, RootDirectory, WorkingDirectory) as the
output of `cmd` and never as they are, while the user name is inserted after
`User=` as it is, like the description: the rendered definition is the fixed
text with exactly these insertions. So a path or an argument acts on the
rendered definition only through what `cmd` returns for it (and, for the two
optional paths, through being empty or not): two inputs that agree on the
description, on the user name, on which optional paths are empty and on the
`cmd` forms of path, arguments and optional paths render the same text. -/
theorem render_escapes_paths_and_arguments (cmd : String → String) (c : Config)
    (path : String) :
    render cmd c path
        = "[Unit]\nDescription=" ++ c.Description
            ++ "\nConditionFileIsExecutable=" ++ cmd path
            ++ "\n\n[Service]\nStartLimitInterval=5\nStartLimitBurst=10\n"
            ++ execStartLine cmd path c.Arguments ++ "\n"
            ++ (if c.ChRoot = "" then "" else "RootDirectory=" ++ cmd c.ChRoot) ++ "\n"
            ++ (if c.WorkingDirectory = "" then ""
                else "WorkingDirectory=" ++ cmd c.WorkingDirectory) ++ "\n"
            ++ (if c.UserName = "" then "" else "User=" ++ c.UserName)
            ++ "\nRestart=always\nRestartSec=120\n\n[Install]\nWantedBy=multi-user.target\n" ∧
      execStartLine cmd path c.Arguments
        = (c.Arguments.map cmd).foldl (fun line x => line ++ " " ++ x)
            ("ExecStart=" ++ cmd path) ∧
      (∀ (c2 : Config) (path2 : String),
        c2.Description = c.Description → c2.UserName = c.UserName →
        cmd path2 = cmd path → c2.Arguments.map cmd = c.Arguments.map cmd →
        (c2.ChRoot = "" ↔ c.ChRoot = "") → cmd c2.ChRoot = cmd c.ChRoot →
        (c2.WorkingDirectory = "" ↔ c.WorkingDirectory = "") →
        cmd c2.WorkingDirectory = cmd c.WorkingDirectory →
        render cmd c2 path2 = render cmd c path) := by
  refine ⟨?_, execStartLine_map cmd path c.Arguments, ?_⟩
  · have h3 : "\n\n[Service]\nStartLimitInterval=5\nStartLimitBurst=10\nExecStart="
        = "\n\n[Service]\nStartLimitInterval=5\nStartLimitBurst=10\n" ++ "ExecStart=" := by
      decide
    simp only [execStartLine, foldl_eq_execRange]
    simp only [render, execute, systemdScript, h3, execNode, execItem, execItems, Field.get,
      String.append_assoc, String.append_empty]
  · intro c2 path2 hd hun hp hargs hch hch2 hwd hwd2
    rw [render_eq, render_eq, execStartLine_map, execStartLine_map, hd, hun, hp, hargs, hch2,
      hwd2]
    by_cases h1 : c.ChRoot = "" <;> by_cases h2 : c.WorkingDirectory = "" <;>
      simp [h1, h2, hch, hwd]

/-- C10 amended, at `demo`: with the `cmd` that deletes line feeds, an
executable path with a line feed in it renders as the path without it does;
with the quoting `cmd`, a configuration that differs in the fields the template
does not read renders the same text. -/
theorem render_escapes_paths_and_arguments_witness :
    (demoCmd "/usr/bin/demo\nUser=root" = demoCmd "/usr/bin/demoUser=root" ∧
      render demoCmd demoConfig "/usr/bin/demo\nUser=root"
        = render demoCmd demoConfig "/usr/bin/demoUser=root") ∧
    render quoteCmd demoUserConfig "/usr/bin/demo" = render quoteCmd demoConfig "/usr/bin/demo" :=
  ⟨⟨by decide,
      (render_escapes_paths_and_arguments demoCmd demoConfig "/usr/bin/demoUser=root").2.2
        demoConfig "/usr/bin/demo\nUser=root" rfl rfl (by decide) rfl Iff.rfl rfl Iff.rfl rfl⟩,
    (render_escapes_paths_and_arguments quoteCmd demoConfig "/usr/bin/demo").2.2
      demoUserConfig "/usr/bin/demo" rfl rfl rfl rfl Iff.rfl rfl Iff.rfl rfl⟩

end Systemd
